import Mathlib

/-!
Shallow embedding of the Sonic Triple Trouble 16-bit autosplitter
(`src/src/lib.rs`).  The external collaborators (process memory reads,
signature scans, the settings registry and the timer) are abstracted into
an `Env` record of query results; everything else is transcribed from the
source: the `Acts` / `GameState` enumerations, the watcher pairs, address
resolution (`ProcessInfo::look_for_addresses`), the per-tick sampling and
table lookup (`State::update`), the decision functions (`State::start`,
`State::split`, `State::reset`) and the exported `update` entry point.
-/

namespace STT

/-- Canonical level identities, transcribed from the `Acts` enum. -/
inductive Acts where
  | AngelIsland
  | ZoneZero
  | GreatTurquoise1
  | GreatTurquoise2
  | SunsetPark1
  | SunsetPark2
  | SunsetPark3
  | MetaJunglira1
  | MetaJunglira2
  | EggZeppelin
  | RobotnikWinter1
  | RobotnikWinter2
  | PurplePalace
  | TidalPlant1
  | TidalPlant2
  | TidalPlant3
  | AtomicDestroyer1
  | AtomicDestroyer2
  | AtomicDestroyer3
  | FinalTrouble
  | Credits
  | None
deriving DecidableEq

/-- Coarse game state, transcribed from the `GameState` enum. -/
inductive GameState where
  | DataSelect
  | GameStart
  | Other
deriving DecidableEq

/-- Host timer phases, from the timer collaborator interface (`asr::timer::TimerState`). -/
inductive TimerState where
  | NotRunning
  | Running
  | Paused
deriving DecidableEq

/-- Commands the entry point can send to the host timer collaborator. -/
inductive TimerAction where
  | pause_game_time
  | resume_game_time
  | set_game_time
  | reset
  | split
  | start
deriving DecidableEq

/-- An (old, current) snapshot of one observed quantity (`asr::watcher::Pair`). -/
structure Pair (α : Type) where
  old : α
  current : α
deriving DecidableEq

/-- A watcher holding an optional pair (`asr::watcher::Watcher`): `pair` is
`none` until the first sample arrives. -/
structure Watcher (α : Type) where
  pair : Option (Pair α)
deriving DecidableEq

/-- Modelled from the spec: the watcher update of the external `asr` crate,
described in the data model as "updated every tick by shifting current→old
then assigning the new sample"; the first sample initializes both fields of
the pair with the sampled value. -/
def Watcher.update {α : Type} (w : Watcher α) (value : α) : Watcher α :=
  match w.pair with
  | none => ⟨some ⟨value, value⟩⟩
  | some p => ⟨some ⟨p.current, value⟩⟩

/-- The settings snapshot: one boolean per toggle, transcribed from the
`Settings` struct. -/
structure Settings where
  start : Bool
  reset : Bool
  zone_zero : Bool
  angel_island : Bool
  great_turquoise_1 : Bool
  great_turquoise_2 : Bool
  sunset_park_1 : Bool
  sunset_park_2 : Bool
  sunset_park_3 : Bool
  meta_junglira_1 : Bool
  meta_junglira_2 : Bool
  egg_zeppelin : Bool
  robotnik_winter_1 : Bool
  robotnik_winter_2 : Bool
  purple_palace : Bool
  tidal_plant_1 : Bool
  tidal_plant_2 : Bool
  tidal_plant_3 : Bool
  atomic_destroyer_1 : Bool
  atomic_destroyer_2 : Bool
  atomic_destroyer_3 : Bool
  final_trouble : Bool
deriving DecidableEq

/-- Resolved absolute addresses, transcribed from the `MemoryPtr` struct. -/
structure MemoryPtr where
  room_id : Nat
  room_id_array : Nat
deriving DecidableEq

/-- Per-attachment process information, transcribed from the `ProcessInfo`
struct; the raw `Process` handle itself lives in the environment. -/
structure ProcessInfo where
  is_64_bit : Bool
  main_module_base : Nat
  main_module_size : Nat
  addresses : Option MemoryPtr
deriving DecidableEq

/-- The two watchers, transcribed from the `Watchers` struct. -/
structure Watchers where
  state : Watcher GameState
  levelid : Watcher Acts
deriving DecidableEq

/-- The autosplitter state, transcribed from the `State` struct. -/
structure State where
  game : Option ProcessInfo
  watchers : Watchers
  settings : Option Settings
deriving DecidableEq

/-- Abstraction of the external collaborators for one tick: outcome of
process attachment (pointer width, module base and size, with the width
discriminated by the 64-bit signature scan inside `attach_process`),
`is_open`, the four signature scans as functions of the scanned range, the
typed memory reads, and the registered settings snapshot.  A `none` result
models a failed attach, scan or read. -/
structure Env where
  attach : Option (Bool × Nat × Nat)
  isOpen : Bool
  scanRoomId64 : Nat → Nat → Option Nat
  scanRoomArray64 : Nat → Nat → Option Nat
  scanRoomId32 : Nat → Nat → Option Nat
  scanRoomArray32 : Nat → Nat → Option Nat
  readU32 : Nat → Option Nat
  readU64 : Nat → Option Nat
  readCStr : Nat → Option String
  registeredSettings : Settings

/-- Transcription of `ProcessInfo::attach_process`: attach to the process,
query the main module base and size, and probe the 64-bit signature; the
fresh info always carries `addresses := none`. -/
def ProcessInfo.attach_process (env : Env) : Option ProcessInfo :=
  match env.attach with
  | none => none
  | some (is64, base, size) =>
      some { is_64_bit := is64, main_module_base := base,
             main_module_size := size, addresses := none }

/-- Transcription of `ProcessInfo::look_for_addresses`: width-specific
signature scans with relative-displacement fix-up (64-bit) or embedded
absolute pointers (32-bit); every step is fallible and failure of any step
yields `none`.  `u32` reads are taken mod `2 ^ 32` and the 64-bit address
arithmetic wraps mod `2 ^ 64`, as in the source. -/
def ProcessInfo.look_for_addresses (self : ProcessInfo) (env : Env) : Option MemoryPtr :=
  if self.is_64_bit then
    match env.scanRoomId64 self.main_module_base self.main_module_size with
    | none => none
    | some sigscan =>
      let ptr := sigscan + 2
      match env.readU32 ptr with
      | none => none
      | some d =>
        let room_id := (ptr + 0x4 + d % 2 ^ 32) % 2 ^ 64
        match env.scanRoomArray64 self.main_module_base self.main_module_size with
        | none => none
        | some sigscan2 =>
          let ptr2 := sigscan2 + 3
          match env.readU32 ptr2 with
          | none => none
          | some d2 =>
            some { room_id := room_id,
                   room_id_array := (ptr2 + 0x4 + d2 % 2 ^ 32) % 2 ^ 64 }
  else
    match env.scanRoomId32 self.main_module_base self.main_module_size with
    | none => none
    | some sigscan =>
      match env.readU32 (sigscan + 1) with
      | none => none
      | some a =>
        let room_id := a % 2 ^ 32
        match env.scanRoomArray32 self.main_module_base self.main_module_size with
        | none => none
        | some sigscan2 =>
          match env.readU32 (sigscan2 + 1) with
          | none => none
          | some b =>
            some { room_id := room_id, room_id_array := b % 2 ^ 32 }

/-- Transcription of `State::init`: attach if not attached, drop the game on
a closed process, resolve addresses only while they are still `none`, and
report whether addresses are resolved. -/
def State.init (s : State) (env : Env) : State × Bool :=
  let game0 := match s.game with
    | none => ProcessInfo.attach_process env
    | some g => some g
  match game0 with
  | none => ({ s with game := none }, false)
  | some g =>
    if !env.isOpen then ({ s with game := none }, false)
    else
      let g' := if g.addresses.isNone
        then { g with addresses := g.look_for_addresses env }
        else g
      ({ s with game := some g' }, g'.addresses.isSome)

/-- The room-id integer sampled each tick: the `u32` read at `room_id`, or
`0` when the read fails (`State::update`, first read). -/
def roomIdValue (env : Env) (addr : Nat) : Nat :=
  match env.readU32 addr with
  | some x => x % 2 ^ 32
  | none => 0

/-- The room-name token sampled each tick: the pointer-width-aware
dereference chain of `State::update` (array cell, slot at
`base + room_id * width`, string bytes); any failure yields the empty
token, the content of a fresh `ArrayCString`. -/
def sampleRoomName (env : Env) (is64 : Bool) (room_id_array : Nat) (room_id : Nat) : String :=
  if is64 then
    match env.readU64 room_id_array with
    | none => ""
    | some a1 =>
      match env.readU64 ((a1 + room_id * 8) % 2 ^ 64) with
      | none => ""
      | some a2 =>
        match env.readCStr a2 with
        | none => ""
        | some name => name
  else
    match env.readU32 room_id_array with
    | none => ""
    | some a1 =>
      match env.readU32 (a1 % 2 ^ 32 + room_id * 4) with
      | none => ""
      | some a2 =>
        match env.readCStr (a2 % 2 ^ 32) with
        | none => ""
        | some name => name

/-- The room-token → Act table of `State::update` (`none` on the wildcard
arm, whose fallback is applied in `State.applySample`). -/
def actOfRoomName : String → Option Acts
  | "rmAIZ" | "rmZONE0bit" | "rmZIBbit" => some .AngelIsland
  | "rmZONE0" => some .ZoneZero
  | "rmGTZ1" => some .GreatTurquoise1
  | "rmGTZ2" => some .GreatTurquoise2
  | "rmSPZ1" => some .SunsetPark1
  | "rmSPZ2" => some .SunsetPark2
  | "rmSPZ3" => some .SunsetPark3
  | "rmMJZ1" => some .MetaJunglira1
  | "rmMJZ2" => some .MetaJunglira2
  | "rmEZZ" => some .EggZeppelin
  | "rmRWZ1" => some .RobotnikWinter1
  | "rmRWZ_Awa" | "rmRWZ2" => some .RobotnikWinter2
  | "rmTPZ1" => some .TidalPlant1
  | "rmTPZ2" => some .TidalPlant2
  | "rmTPZ3" => some .TidalPlant3
  | "rmADZ1" => some .AtomicDestroyer1
  | "rmADZ2" => some .AtomicDestroyer2
  | "rmADZ3" => some .AtomicDestroyer3
  | "rmFinal" => some .FinalTrouble
  | "rmPPZ" => some .PurplePalace
  | "rmFinalEnding" | "rmKnuxEnding" | "rmKnuxEnding2" | "rmCredits" => some .Credits
  | _ => none

/-- The room-token → GameState table of `State::update`. -/
def gameStateOfRoomName : String → GameState
  | "rmDataSelect" => GameState.DataSelect
  | "rmGameStart" => GameState.GameStart
  | _ => GameState.Other

/-- The tail of `State::update` once the room name is sampled: map the token
through the two tables (the Act table falls back to the previously observed
current Act, or the sentinel `Acts.None` when no pair exists yet) and update
both watchers unconditionally. -/
def State.applySample (s : State) (room_name : String) : State :=
  let act := match actOfRoomName room_name with
    | some a => a
    | none => match s.watchers.levelid.pair with
      | some x => x.current
      | none => Acts.None
  let state := gameStateOfRoomName room_name
  { s with watchers := { state := s.watchers.state.update state,
                         levelid := s.watchers.levelid.update act } }

/-- Transcription of `State::update`: do nothing without an attached game or
resolved addresses; otherwise sample the room id and room name and feed the
token to both watchers. -/
def State.update (s : State) (env : Env) : State :=
  match s.game with
  | none => s
  | some game =>
    match game.addresses with
    | none => s
    | some addresses =>
      let room_id := roomIdValue env addresses.room_id
      let room_name := sampleRoomName env game.is_64_bit addresses.room_id_array room_id
      s.applySample room_name

/-- Transcription of `State::start`. -/
def State.start (s : State) : Bool :=
  match s.settings with
  | none => false
  | some settings =>
    if !settings.start then false
    else
      match s.watchers.state.pair with
      | none => false
      | some state =>
        decide (state.old = GameState.DataSelect) &&
          decide (state.current = GameState.GameStart)

/-- The split transition table of `State::split`: a switch on the current
Act, each branch gated by its own settings toggle and predecessor test. -/
def splitTable (settings : Settings) (levelid : Pair Acts) : Bool :=
  match levelid.current with
  | .GreatTurquoise1 =>
      (settings.zone_zero && decide (levelid.old = Acts.ZoneZero)) ||
        (settings.angel_island && decide (levelid.old = Acts.AngelIsland))
  | .GreatTurquoise2 =>
      settings.great_turquoise_1 && decide (levelid.old = Acts.GreatTurquoise1)
  | .SunsetPark1 =>
      settings.great_turquoise_2 && decide (levelid.old = Acts.GreatTurquoise2)
  | .SunsetPark2 => settings.sunset_park_1 && decide (levelid.old = Acts.SunsetPark1)
  | .SunsetPark3 => settings.sunset_park_2 && decide (levelid.old = Acts.SunsetPark2)
  | .MetaJunglira1 => settings.sunset_park_3 && decide (levelid.old = Acts.SunsetPark3)
  | .MetaJunglira2 =>
      settings.meta_junglira_1 && decide (levelid.old = Acts.MetaJunglira1)
  | .EggZeppelin => settings.meta_junglira_2 && decide (levelid.old = Acts.MetaJunglira2)
  | .RobotnikWinter1 => settings.egg_zeppelin && decide (levelid.old = Acts.EggZeppelin)
  | .RobotnikWinter2 =>
      settings.robotnik_winter_1 && decide (levelid.old = Acts.RobotnikWinter1)
  | .PurplePalace =>
      settings.robotnik_winter_2 && decide (levelid.old = Acts.RobotnikWinter2)
  | .TidalPlant1 =>
      (settings.robotnik_winter_2 && decide (levelid.old = Acts.RobotnikWinter2)) ||
        (settings.purple_palace && decide (levelid.old = Acts.PurplePalace))
  | .TidalPlant2 => settings.tidal_plant_1 && decide (levelid.old = Acts.TidalPlant1)
  | .TidalPlant3 => settings.tidal_plant_2 && decide (levelid.old = Acts.TidalPlant2)
  | .AtomicDestroyer1 =>
      settings.tidal_plant_3 && decide (levelid.old = Acts.TidalPlant3)
  | .AtomicDestroyer2 =>
      settings.atomic_destroyer_1 && decide (levelid.old = Acts.AtomicDestroyer1)
  | .AtomicDestroyer3 =>
      settings.atomic_destroyer_2 && decide (levelid.old = Acts.AtomicDestroyer2)
  | .FinalTrouble =>
      settings.atomic_destroyer_3 && decide (levelid.old = Acts.AtomicDestroyer3)
  | .Credits =>
      (settings.atomic_destroyer_3 && decide (levelid.old = Acts.AtomicDestroyer3)) ||
        (settings.final_trouble && decide (levelid.old = Acts.FinalTrouble))
  | _ => false

/-- Transcription of `State::split`: `false` without a pair or settings,
otherwise the transition table. -/
def State.split (s : State) : Bool :=
  match s.watchers.levelid.pair with
  | none => false
  | some levelid =>
    match s.settings with
    | none => false
    | some settings => splitTable settings levelid

/-- Transcription of `State::reset`. -/
def State.reset (s : State) : Bool :=
  match s.settings with
  | none => false
  | some settings =>
    if !settings.reset then false
    else
      match s.watchers.state.pair with
      | none => false
      | some state =>
        decide (state.old = GameState.DataSelect) &&
          decide (state.current = GameState.GameStart)

/-- Transcription of `State::is_loading`: always `None`. -/
def State.is_loading (_ : State) : Option Bool := none

/-- Transcription of `State::game_time`: always `None` (duration modelled as
an integer). -/
def State.game_time (_ : State) : Option Int := none

/-- Transcription of the exported `update` entry point: register settings if
absent, init, bail out when unresolved, run the main update, then drive the
timer.  `timer_state` and `timer_state2` are the two `timer::state()`
observations (lines 383 and 404); the returned list is the sequence of
timer commands issued this tick. -/
def updateEntry (s : State) (env : Env) (timer_state timer_state2 : TimerState) :
    State × List TimerAction :=
  let s0 := { s with settings := some (s.settings.getD env.registeredSettings) }
  let ini := State.init s0 env
  if !ini.2 then (ini.1, [])
  else
    let s1 := State.update ini.1 env
    let loadActs : List TimerAction :=
      match State.is_loading s1 with
      | some true => [TimerAction.pause_game_time]
      | some false => [TimerAction.resume_game_time]
      | none => []
    let gtActs : List TimerAction :=
      match State.game_time s1 with
      | some _ => [TimerAction.set_game_time]
      | none => []
    let acts1 : List TimerAction :=
      if timer_state = TimerState.Running ∨ timer_state = TimerState.Paused then
        loadActs ++ gtActs ++
          (if State.reset s1 then [TimerAction.reset]
           else if State.split s1 then [TimerAction.split]
           else [])
      else []
    let acts2 : List TimerAction :=
      if timer_state2 = TimerState.NotRunning ∧ State.start s1 then [TimerAction.start]
      else []
    (s1, acts1 ++ acts2)

/-- All required resolution steps succeed: both width-specific signature
scans match and both dependent displacement/pointer reads succeed. -/
def resolutionSucceeds (self : ProcessInfo) (env : Env) : Prop :=
  if self.is_64_bit then
    (∃ s1, env.scanRoomId64 self.main_module_base self.main_module_size = some s1 ∧
      (env.readU32 (s1 + 2)).isSome) ∧
    (∃ s2, env.scanRoomArray64 self.main_module_base self.main_module_size = some s2 ∧
      (env.readU32 (s2 + 3)).isSome)
  else
    (∃ s1, env.scanRoomId32 self.main_module_base self.main_module_size = some s1 ∧
      (env.readU32 (s1 + 1)).isSome) ∧
    (∃ s2, env.scanRoomArray32 self.main_module_base self.main_module_size = some s2 ∧
      (env.readU32 (s2 + 1)).isSome)

/-! Concrete fixtures used by the witness theorems. -/

/-- A settings snapshot with every toggle enabled (the documented default). -/
def allOn : Settings :=
  { start := true, reset := true, zone_zero := true, angel_island := true,
    great_turquoise_1 := true, great_turquoise_2 := true,
    sunset_park_1 := true, sunset_park_2 := true, sunset_park_3 := true,
    meta_junglira_1 := true, meta_junglira_2 := true, egg_zeppelin := true,
    robotnik_winter_1 := true, robotnik_winter_2 := true, purple_palace := true,
    tidal_plant_1 := true, tidal_plant_2 := true, tidal_plant_3 := true,
    atomic_destroyer_1 := true, atomic_destroyer_2 := true,
    atomic_destroyer_3 := true, final_trouble := true }

/-- Concrete resolved addresses. -/
def ptrA : MemoryPtr := { room_id := 100, room_id_array := 200 }

/-- A concrete attached 64-bit process with resolved addresses. -/
def infoA : ProcessInfo :=
  { is_64_bit := true, main_module_base := 0, main_module_size := 1000,
    addresses := some ptrA }

/-- A concrete environment whose reads dereference to the room token
`rmGTZ1`. -/
def envA : Env :=
  { attach := none, isOpen := true,
    scanRoomId64 := fun _ _ => some 10,
    scanRoomArray64 := fun _ _ => some 20,
    scanRoomId32 := fun _ _ => some 30,
    scanRoomArray32 := fun _ _ => some 40,
    readU32 := fun _ => some 0,
    readU64 := fun _ => some 300,
    readCStr := fun _ => some "rmGTZ1",
    registeredSettings := allOn }

/-- A concrete state: attached, resolved, previously observed in ZoneZero. -/
def stateA : State :=
  { game := some infoA,
    watchers :=
      { state := ⟨some ⟨GameState.Other, GameState.Other⟩⟩,
        levelid := ⟨some ⟨Acts.ZoneZero, Acts.ZoneZero⟩⟩ },
    settings := some allOn }

/-! Claim theorems. -/

/-- C2: with settings present and a GameState pair recorded, `State.start`
is exactly "start toggle on and the pair is (DataSelect, GameStart)", and
`State.reset` is exactly the same transition test gated by the reset toggle;
each formula mentions only its own toggle, so the two results are
independent of the other toggle. -/
theorem start_reset_law (s : State) (st : Settings) (p : Pair GameState)
    (hst : s.settings = some st) (hp : s.watchers.state.pair = some p) :
    State.start s = (st.start && (decide (p.old = GameState.DataSelect) &&
        decide (p.current = GameState.GameStart))) ∧
    State.reset s = (st.reset && (decide (p.old = GameState.DataSelect) &&
        decide (p.current = GameState.GameStart))) := by
  unfold State.start State.reset
  rw [hst, hp]
  cases hs : st.start <;> cases hr : st.reset <;> simp [hs, hr]

/-- Witness for C2 at a concrete state. -/
theorem start_reset_law_witness :
    stateA.settings = some allOn ∧
    stateA.watchers.state.pair = some ⟨GameState.Other, GameState.Other⟩ ∧
    (State.start stateA =
      (allOn.start &&
        (decide ((⟨GameState.Other, GameState.Other⟩ : Pair GameState).old =
            GameState.DataSelect) &&
          decide ((⟨GameState.Other, GameState.Other⟩ : Pair GameState).current =
            GameState.GameStart))) ∧
     State.reset stateA =
      (allOn.reset &&
        (decide ((⟨GameState.Other, GameState.Other⟩ : Pair GameState).old =
            GameState.DataSelect) &&
          decide ((⟨GameState.Other, GameState.Other⟩ : Pair GameState).current =
            GameState.GameStart)))) :=
  ⟨rfl, rfl, start_reset_law stateA allOn ⟨GameState.Other, GameState.Other⟩ rfl rfl⟩

/-- C3: fan-in into GreatTurquoise1 — with the pair (ZoneZero,
GreatTurquoise1), `State.split` is true whenever `zone_zero` is enabled, for
every value of `angel_island`; symmetrically for (AngelIsland,
GreatTurquoise1) and the `angel_island` toggle. -/
theorem split_fan_in (s : State) (st : Settings) (p : Pair Acts)
    (hst : s.settings = some st) (hp : s.watchers.levelid.pair = some p)
    (hc : p.current = Acts.GreatTurquoise1) :
    (p.old = Acts.ZoneZero → st.zone_zero = true → State.split s = true) ∧
    (p.old = Acts.AngelIsland → st.angel_island = true → State.split s = true) := by
  simp only [State.split, hp, hst]
  constructor
  · intro ho hz
    simp [splitTable, hc, ho, hz]
  · intro ho ha
    simp [splitTable, hc, ho, ha]

/-- Witness for C3: the ZoneZero → GreatTurquoise1 edge splits with every
toggle enabled. -/
theorem split_fan_in_witness :
    (⟨Acts.ZoneZero, Acts.GreatTurquoise1⟩ : Pair Acts).old = Acts.ZoneZero ∧
    allOn.zone_zero = true ∧
    State.split { stateA with watchers :=
      { stateA.watchers with
        levelid := ⟨some ⟨Acts.ZoneZero, Acts.GreatTurquoise1⟩⟩ } } = true :=
  ⟨rfl, rfl,
    (split_fan_in _ allOn ⟨Acts.ZoneZero, Acts.GreatTurquoise1⟩ rfl rfl rfl).1 rfl rfl⟩

/-- C4: `State.split` is false whenever the current Act is the sentinel
`Acts.None` or one of the Acts absent from the split table (AngelIsland,
ZoneZero), for every settings snapshot and every old Act. -/
theorem split_absent_acts (s : State) (st : Settings) (p : Pair Acts)
    (hst : s.settings = some st) (hp : s.watchers.levelid.pair = some p)
    (hc : p.current = Acts.None ∨ p.current = Acts.AngelIsland ∨
      p.current = Acts.ZoneZero) :
    State.split s = false := by
  simp only [State.split, hp, hst]
  rcases hc with h | h | h <;> simp [splitTable, h]

/-- Witness for C4 at the sentinel Act. -/
theorem split_absent_acts_witness :
    ((⟨Acts.ZoneZero, Acts.None⟩ : Pair Acts).current = Acts.None ∨
      (⟨Acts.ZoneZero, Acts.None⟩ : Pair Acts).current = Acts.AngelIsland ∨
      (⟨Acts.ZoneZero, Acts.None⟩ : Pair Acts).current = Acts.ZoneZero) ∧
    State.split { stateA with watchers :=
      { stateA.watchers with
        levelid := ⟨some ⟨Acts.ZoneZero, Acts.None⟩⟩ } } = false :=
  ⟨Or.inl rfl,
    split_absent_acts _ allOn ⟨Acts.ZoneZero, Acts.None⟩ rfl rfl (Or.inl rfl)⟩

/-- C9: no split on a self-transition — whenever the Act pair has
`old = current`, `State.split` is false, because every branch of the table
requires `old` to equal a predecessor that differs from the matched current
Act. -/
theorem split_self_transition (s : State) (st : Settings) (p : Pair Acts)
    (hst : s.settings = some st) (hp : s.watchers.levelid.pair = some p)
    (h : p.old = p.current) :
    State.split s = false := by
  simp only [State.split, hp, hst]
  obtain ⟨o, c⟩ := p
  simp only at h
  subst h
  cases o <;> simp [splitTable]

/-- Witness for C9 at a self-transition on GreatTurquoise1. -/
theorem split_self_transition_witness :
    (⟨Acts.GreatTurquoise1, Acts.GreatTurquoise1⟩ : Pair Acts).old =
      (⟨Acts.GreatTurquoise1, Acts.GreatTurquoise1⟩ : Pair Acts).current ∧
    State.split { stateA with watchers :=
      { stateA.watchers with
        levelid := ⟨some ⟨Acts.GreatTurquoise1, Acts.GreatTurquoise1⟩⟩ } } = false :=
  ⟨rfl,
    split_self_transition _ allOn ⟨Acts.GreatTurquoise1, Acts.GreatTurquoise1⟩
      rfl rfl rfl⟩

/-- A concrete state with watchers that have never been updated. -/
def stateC : State :=
  { game := some infoA,
    watchers := { state := ⟨none⟩, levelid := ⟨none⟩ },
    settings := some allOn }

/-- A concrete environment whose reads dereference to the unrecognized room
token `rmTitle`. -/
def envC : Env :=
  { envA with readCStr := fun _ => some "rmTitle" }

/-- C1: persistence law — when the sampled room name matches a recognized
token, `State.update` stores the canonical Act of the table as the new
current value; when it matches no table entry, the stored current Act equals
the current value from before the update; the empty token of a failed read
matches no table entry. -/
theorem act_persistence (s : State) (env : Env) (g : ProcessInfo) (a : MemoryPtr)
    (n : String) (hg : s.game = some g) (ha : g.addresses = some a)
    (hn : n = sampleRoomName env g.is_64_bit a.room_id_array (roomIdValue env a.room_id)) :
    (∀ act, actOfRoomName n = some act →
      ∃ p, (State.update s env).watchers.levelid.pair = some p ∧ p.current = act) ∧
    (actOfRoomName n = none → ∀ p0, s.watchers.levelid.pair = some p0 →
      ∃ p, (State.update s env).watchers.levelid.pair = some p ∧
        p.current = p0.current) ∧
    actOfRoomName "" = none := by
  have hup : State.update s env = s.applySample n := by
    simp only [State.update, hg, ha, hn]
  refine ⟨?_, ?_, rfl⟩
  · intro act hact
    rw [hup]
    simp only [State.applySample, hact, Watcher.update]
    cases hpair : s.watchers.levelid.pair with
    | none => exact ⟨_, rfl, rfl⟩
    | some p0 => exact ⟨_, rfl, rfl⟩
  · intro hact p0 hpair
    rw [hup]
    simp only [State.applySample, hact, hpair, Watcher.update]
    exact ⟨_, rfl, rfl⟩

/-- Witness for C1: the concrete environment dereferences to `rmGTZ1` and
the stored current Act is GreatTurquoise1. -/
theorem act_persistence_witness :
    actOfRoomName "rmGTZ1" = some Acts.GreatTurquoise1 ∧
    ∃ p, (State.update stateA envA).watchers.levelid.pair = some p ∧
      p.current = Acts.GreatTurquoise1 :=
  ⟨rfl, (act_persistence stateA envA infoA ptrA "rmGTZ1" rfl rfl rfl).1
    Acts.GreatTurquoise1 rfl⟩

/-- C10: first-sample sentinel — when `State.update` runs with no prior Act
pair recorded and the sampled token matches no table entry, the Act stored
as current is the sentinel `Acts.None`. -/
theorem first_sample_sentinel (s : State) (env : Env) (g : ProcessInfo)
    (a : MemoryPtr) (n : String) (hg : s.game = some g) (ha : g.addresses = some a)
    (hn : n = sampleRoomName env g.is_64_bit a.room_id_array (roomIdValue env a.room_id))
    (hnone : actOfRoomName n = none) (hp : s.watchers.levelid.pair = none) :
    (State.update s env).watchers.levelid.pair = some ⟨Acts.None, Acts.None⟩ := by
  have hup : State.update s env = s.applySample n := by
    simp only [State.update, hg, ha, hn]
  rw [hup]
  simp only [State.applySample, hnone, hp, Watcher.update]

/-- Witness for C10: a fresh watcher fed the unrecognized token `rmTitle`
records the sentinel pair. -/
theorem first_sample_sentinel_witness :
    actOfRoomName "rmTitle" = none ∧
    (State.update stateC envC).watchers.levelid.pair =
      some ⟨Acts.None, Acts.None⟩ :=
  ⟨rfl, first_sample_sentinel stateC envC infoA ptrA "rmTitle" rfl rfl rfl rfl rfl⟩

/-- C8: idempotence of watcher updates — running `State.update` twice
against the same environment leaves both watcher pairs with
`old = current` after the second call. -/
theorem update_idempotent (s : State) (env : Env) (g : ProcessInfo) (a : MemoryPtr)
    (hg : s.game = some g) (ha : g.addresses = some a) :
    ∃ x y,
      (State.update (State.update s env) env).watchers.levelid.pair = some ⟨x, x⟩ ∧
      (State.update (State.update s env) env).watchers.state.pair = some ⟨y, y⟩ := by
  have h1 : State.update s env =
      s.applySample (sampleRoomName env g.is_64_bit a.room_id_array
        (roomIdValue env a.room_id)) := by
    simp only [State.update, hg, ha]
  have hg2 : (s.applySample (sampleRoomName env g.is_64_bit a.room_id_array
      (roomIdValue env a.room_id))).game = some g := hg
  have h2 : State.update (s.applySample (sampleRoomName env g.is_64_bit
      a.room_id_array (roomIdValue env a.room_id))) env =
      (s.applySample (sampleRoomName env g.is_64_bit a.room_id_array
        (roomIdValue env a.room_id))).applySample
        (sampleRoomName env g.is_64_bit a.room_id_array (roomIdValue env a.room_id)) := by
    simp only [State.update, hg2, ha]
  rw [h1, h2]
  generalize sampleRoomName env g.is_64_bit a.room_id_array (roomIdValue env a.room_id) = n
  rcases s with ⟨og, ⟨⟨wsp⟩, ⟨wlp⟩⟩, oset⟩
  cases hact : actOfRoomName n <;> cases wlp <;> cases wsp <;>
    simp [State.applySample, Watcher.update, hact]

/-- Witness for C8 at the concrete state and environment. -/
theorem update_idempotent_witness :
    stateA.game = some infoA ∧
    ∃ x y,
      (State.update (State.update stateA envA) envA).watchers.levelid.pair =
        some ⟨x, x⟩ ∧
      (State.update (State.update stateA envA) envA).watchers.state.pair =
        some ⟨y, y⟩ :=
  ⟨rfl, update_idempotent stateA envA infoA ptrA rfl rfl⟩

/-- C5: address resolution is all-or-nothing and retried until cached —
`look_for_addresses` succeeds exactly when both width-specific signature
scans and both dependent reads succeed (so it never partially commits);
`State.init` re-runs it whenever the cached addresses are `none`, and once
they are `some` it returns the game info unchanged with result `true`,
never recomputing the addresses while the attachment stays open. -/
theorem resolution_all_or_nothing (env : Env) (info : ProcessInfo) :
    ((info.look_for_addresses env).isSome = true ↔ resolutionSucceeds info env) ∧
    (∀ s g, s.game = some g → env.isOpen = true → g.addresses = none →
      (State.init s env).1.game =
        some { g with addresses := g.look_for_addresses env } ∧
      (State.init s env).2 = (g.look_for_addresses env).isSome) ∧
    (∀ s g ptr, s.game = some g → env.isOpen = true → g.addresses = some ptr →
      (State.init s env).1.game = some g ∧ (State.init s env).2 = true) := by
  refine ⟨?_, ?_, ?_⟩
  · unfold ProcessInfo.look_for_addresses resolutionSucceeds
    cases h64 : info.is_64_bit
    · simp only [h64, Bool.false_eq_true, if_false]
      cases h1 : env.scanRoomId32 info.main_module_base info.main_module_size with
      | none => simp [h1]
      | some s1 =>
        cases h2 : env.readU32 (s1 + 1) with
        | none => simp [h1, h2]
        | some d1 =>
          cases h3 : env.scanRoomArray32 info.main_module_base info.main_module_size with
          | none => simp [h1, h2, h3]
          | some s2 =>
            cases h4 : env.readU32 (s2 + 1) <;> simp [h1, h2, h3, h4]
    · simp only [h64, if_true]
      cases h1 : env.scanRoomId64 info.main_module_base info.main_module_size with
      | none => simp [h1]
      | some s1 =>
        cases h2 : env.readU32 (s1 + 2) with
        | none => simp [h1, h2]
        | some d1 =>
          cases h3 : env.scanRoomArray64 info.main_module_base info.main_module_size with
          | none => simp [h1, h2, h3]
          | some s2 =>
            cases h4 : env.readU32 (s2 + 3) <;> simp [h1, h2, h3, h4]
  · intro s g hg hop haddr
    rcases s with ⟨og, w, oset⟩
    have hg' : og = some g := hg
    subst hg'
    simp [State.init, hop, haddr]
  · intro s g ptr hg hop haddr
    rcases s with ⟨og, w, oset⟩
    have hg' : og = some g := hg
    subst hg'
    simp [State.init, hop, haddr]

/-- Witness for C5: a resolved attachment passes through `State.init`
unchanged with result `true`. -/
theorem resolution_all_or_nothing_witness :
    envA.isOpen = true ∧
    ((State.init stateA envA).1.game = some infoA ∧
      (State.init stateA envA).2 = true) :=
  ⟨rfl, (resolution_all_or_nothing envA infoA).2.2 stateA infoA ptrA rfl rfl rfl⟩

/-- A concrete environment in which every memory read fails. -/
def envFail : Env :=
  { envA with readU32 := fun _ => none, readU64 := fun _ => none,
              readCStr := fun _ => none }

/-- C6: sampling degrades gracefully — a failed room-id read substitutes 0
and the tick continues with the name sampled at id 0; a failure anywhere in
the room-name dereference chain (array cell, slot, string read) yields the
empty token, in both pointer widths; and `State.update` never returns
early: with an attached, resolved game both watcher pairs are populated
after the call. -/
theorem sampling_degrades (s : State) (env : Env) (g : ProcessInfo) (a : MemoryPtr)
    (hg : s.game = some g) (ha : g.addresses = some a) :
    (env.readU32 a.room_id = none →
      State.update s env =
        s.applySample (sampleRoomName env g.is_64_bit a.room_id_array 0)) ∧
    (∀ arr rid, env.readU64 arr = none → sampleRoomName env true arr rid = "") ∧
    (∀ arr rid a1, env.readU64 arr = some a1 →
      env.readU64 ((a1 + rid * 8) % 2 ^ 64) = none →
      sampleRoomName env true arr rid = "") ∧
    (∀ arr rid a1 a2, env.readU64 arr = some a1 →
      env.readU64 ((a1 + rid * 8) % 2 ^ 64) = some a2 →
      env.readCStr a2 = none → sampleRoomName env true arr rid = "") ∧
    (∀ arr rid, env.readU32 arr = none → sampleRoomName env false arr rid = "") ∧
    (∀ arr rid a1, env.readU32 arr = some a1 →
      env.readU32 (a1 % 2 ^ 32 + rid * 4) = none →
      sampleRoomName env false arr rid = "") ∧
    (∀ arr rid a1 a2, env.readU32 arr = some a1 →
      env.readU32 (a1 % 2 ^ 32 + rid * 4) = some a2 →
      env.readCStr (a2 % 2 ^ 32) = none → sampleRoomName env false arr rid = "") ∧
    (State.update s env).watchers.levelid.pair.isSome = true ∧
    (State.update s env).watchers.state.pair.isSome = true := by
  have hup : State.update s env =
      s.applySample (sampleRoomName env g.is_64_bit a.room_id_array
        (roomIdValue env a.room_id)) := by
    simp only [State.update, hg, ha]
  refine ⟨?_, ?_, ?_, ?_, ?_, ?_, ?_, ?_, ?_⟩
  · intro h
    simp only [State.update, hg, ha, roomIdValue, h]
  · intro arr rid h
    simp only [sampleRoomName, reduceIte, h]
  · intro arr rid a1 h h2
    simp only [sampleRoomName, reduceIte, h, h2]
  · intro arr rid a1 a2 h h2 h3
    simp only [sampleRoomName, reduceIte, h, h2, h3]
  · intro arr rid h
    simp only [sampleRoomName, Bool.false_eq_true, if_false, h]
  · intro arr rid a1 h h2
    simp only [sampleRoomName, Bool.false_eq_true, if_false, h, h2]
  · intro arr rid a1 a2 h h2 h3
    simp only [sampleRoomName, Bool.false_eq_true, if_false, h, h2, h3]
  · rw [hup]
    cases hw : s.watchers.levelid.pair <;>
      simp [State.applySample, Watcher.update, hw]
  · rw [hup]
    cases hw : s.watchers.state.pair <;>
      simp [State.applySample, Watcher.update, hw]

/-- Witness for C6: an environment whose reads all fail still yields a
populated sentinel pair through `State.update`. -/
theorem sampling_degrades_witness :
    envFail.readU32 ptrA.room_id = none ∧
    State.update stateA envFail =
      stateA.applySample (sampleRoomName envFail infoA.is_64_bit
        ptrA.room_id_array 0) ∧
    (State.update stateA envFail).watchers.levelid.pair.isSome = true :=
  ⟨rfl,
    (sampling_degrades stateA envFail infoA ptrA rfl rfl).1 rfl,
    (sampling_degrades stateA envFail infoA ptrA rfl rfl).2.2.2.2.2.2.2.1⟩

/-- C7: reset excludes split in the same tick — the entry point emits
`timer::split` only when `State::reset` returned false on the updated
state, and no tick emits both `timer::reset` and `timer::split`. -/
theorem reset_excludes_split (s : State) (env : Env) (t1 t2 : TimerState) :
    (TimerAction.split ∈ (updateEntry s env t1 t2).2 →
      State.reset (updateEntry s env t1 t2).1 = false) ∧
    ¬(TimerAction.reset ∈ (updateEntry s env t1 t2).2 ∧
      TimerAction.split ∈ (updateEntry s env t1 t2).2) := by
  cases hini : State.init
      { s with settings := some (s.settings.getD env.registeredSettings) } env with
  | mk s1 ok =>
    cases ok <;> cases t1 <;> cases t2 <;>
      cases hr : State.reset (State.update s1 env) <;>
      cases hsp : State.split (State.update s1 env) <;>
      cases hst : State.start (State.update s1 env) <;>
      simp [updateEntry, State.is_loading, State.game_time, hini, hr, hsp, hst]

/-- Witness for C7: a tick that emits `timer::split` from the concrete
ZoneZero → GreatTurquoise1 transition, on which `State::reset` is false. -/
theorem reset_excludes_split_witness :
    TimerAction.split ∈ (updateEntry stateA envA TimerState.Running TimerState.Running).2 ∧
    State.reset (updateEntry stateA envA TimerState.Running TimerState.Running).1 = false :=
  ⟨by decide,
    (reset_excludes_split stateA envA TimerState.Running TimerState.Running).1 (by decide)⟩

end STT
